import Mathlib

/-!
Verification development for the women-safety monitoring engine
(`src/app.py`).  The Python program is shallowly embedded: the process-wide
mutable `SystemState` becomes an explicit state record, every handler
becomes a pure function from state (plus the nondeterministic inputs the
handler consumes: random perturbations, detection results, wall-clock
strings) to a new state together with its observable outputs (socket
emissions, notification calls, RPC results).  Machine floats are modelled
as rationals; Python `round(x, 6)` is modelled with Mathlib `round`
(half-up instead of banker's rounding at exact ties, which no claim
touches); `math.cos`/`math.sin` of the heading enter only through the
products `distance * cos(...)` and `distance * sin(...)`, which are taken
as arbitrary rational step inputs since every property proved here holds
for all step values.
-/

/-- Configuration constants from `Config` in `src/app.py`. -/
def SIMULATION_GPS_CENTER : ℚ × ℚ := (286139/10000, 772090/10000)

/-- `Config.SIMULATION_GPS_RADIUS = 0.01`. -/
def SIMULATION_GPS_RADIUS : ℚ := 1/100

/-- Event-log capacity hardcoded at line 231 of `src/app.py`. -/
def CAPACITY : ℕ := 50

/-- A location sample as produced by `get_simulated_gps` (the returned
dict with keys latitude, longitude, timestamp, accuracy, source). -/
structure Location where
  latitude : ℚ
  longitude : ℚ
  timestamp : String
  accuracy : ℚ
  source : String
deriving DecidableEq, Repr

/-- An event dict as stored in `state.events`.  Safe events carry no
keyword key; distress events do — modelled with `Option`. -/
structure Event where
  latitude : ℚ
  longitude : ℚ
  timestamp : String
  status : String
  keyword : Option String
  accuracy : ℚ
deriving DecidableEq, Repr

/-- The process-wide `SystemState` object of `src/app.py` (lines 65-78). -/
structure SystemState where
  running : Bool
  current_location : Option Location
  current_status : String
  events : List Event
  connected_clients : ℤ
  firebase_connected : Bool
  telegram_enabled : Bool
  sim_lat : ℚ
  sim_lon : ℚ
  sim_angle : ℚ
deriving DecidableEq, Repr

/-- The initial state built by `SystemState.__init__` (handlers default to
disconnected when no external credentials are configured). -/
def initState : SystemState where
  running := false
  current_location := none
  current_status := "safe"
  events := []
  connected_clients := 0
  firebase_connected := false
  telegram_enabled := false
  sim_lat := SIMULATION_GPS_CENTER.1
  sim_lon := SIMULATION_GPS_CENTER.2
  sim_angle := 0

/-- One tick's worth of randomness consumed by `get_simulated_gps`:
the heading delta (`random.uniform(-30, 30)`), the two coordinate steps
standing for `distance * cos(radians(angle))` and
`distance * sin(radians(angle))`, the accuracy draw
(`random.uniform(5, 15)`) and the timestamp string. -/
structure GpsPerturb where
  dAngle : ℚ
  stepLat : ℚ
  stepLon : ℚ
  accuracy : ℚ
  now : String

/-- The clamp applied to one coordinate in `get_simulated_gps`
(lines 95-99): if the coordinate strayed more than `radius` from the
center it is snapped back to the nearer edge of the box. -/
def clampCoord (x center radius : ℚ) : ℚ :=
  if |x - center| > radius then
    (if x > center then center + radius else center - radius)
  else x

/-- Python `round(x, 6)` on the returned coordinates (line 102-103). -/
def round6 (q : ℚ) : ℚ := ((round (q * 1000000) : ℤ) : ℚ) / 1000000

/-- `get_simulated_gps` (lines 83-107): advance the heading, step the
position, clamp it into the bounding box, and return the rounded sample.
Only the `sim_` fields of the state change. -/
def get_simulated_gps (s : SystemState) (p : GpsPerturb) :
    SystemState × Location :=
  let angle := s.sim_angle + p.dAngle
  let lat := clampCoord (s.sim_lat + p.stepLat) SIMULATION_GPS_CENTER.1
    SIMULATION_GPS_RADIUS
  let lon := clampCoord (s.sim_lon + p.stepLon) SIMULATION_GPS_CENTER.2
    SIMULATION_GPS_RADIUS
  ({ s with sim_angle := angle, sim_lat := lat, sim_lon := lon },
   { latitude := round6 lat, longitude := round6 lon, timestamp := p.now,
     accuracy := p.accuracy, source := "simulated" })

/-- The result of `simulate_voice_detection` (lines 110-115), consumed as
a tick input since it is a random draw. -/
structure DetectionResult where
  triggered : Bool
  keyword : Option String
  confidence : ℚ

/-- A socket.io emission made by the engine or a handler. -/
inductive Emit where
  | location_update (l : Location)
  | status_update (st : String) (ts : String)
  | emergency_alert (e : Event)
deriving DecidableEq, Repr

/-- The capped insertion of the distress branch (lines 230-232):
`insert(0, event)` then `pop()` of the tail when the length exceeds 50. -/
def appendCapped (e : Event) (evs : List Event) : List Event :=
  let evs' := e :: evs
  if evs'.length > CAPACITY then evs'.dropLast else evs'

/-- Randomness and clock inputs consumed by one iteration of
`monitoring_loop`: the main GPS draw, the detection draw, the fifteen GPS
draws of the escalation sub-loop, and the timestamp of the final
`status_update`. -/
structure TickInput where
  gps : GpsPerturb
  det : DetectionResult
  escGps : ℕ → GpsPerturb
  now : String

/-- The observable outcome of one loop iteration. -/
structure TickOut where
  state : SystemState
  emits : List Emit
  notifyCalls : ℕ

/-- Body of the heightened-monitoring sub-loop, recursing over the list of
loop indices: each iteration draws one GPS sample and broadcasts it as a
`location_update`. -/
def escSteps (s : SystemState) (escGps : ℕ → GpsPerturb) :
    List ℕ → SystemState × List Emit
  | [] => (s, [])
  | i :: is =>
      let r := get_simulated_gps s (escGps i)
      let rest := escSteps r.1 escGps is
      (rest.1, Emit.location_update r.2 :: rest.2)

/-- The heightened-monitoring sub-loop (lines 248-251): fifteen extra GPS
samples (`for i in range(15)`), each broadcast as a `location_update`; the
local `location` variable is rebound but `state.current_location` is not
updated here. -/
def escalationLoop (s : SystemState) (escGps : ℕ → GpsPerturb) :
    SystemState × List Emit :=
  escSteps s escGps (List.range 15)

/-- The distress event built at lines 220-227 from the current sample and
the detected keyword. -/
def distressEvent (loc : Location) (kw : Option String) : Event where
  latitude := loc.latitude
  longitude := loc.longitude
  timestamp := loc.timestamp
  status := "distress"
  keyword := kw
  accuracy := loc.accuracy

/-- The periodic safe audit event built at lines 258-264 (no keyword). -/
def safeEvent (loc : Location) : Event where
  latitude := loc.latitude
  longitude := loc.longitude
  timestamp := loc.timestamp
  status := "safe"
  keyword := none
  accuracy := loc.accuracy

/-- One iteration of the `while state.running` body of `monitoring_loop`
(lines 203-274).  Sample and publish the location; run detection once; on
a trigger: set status to distress, append the event with the capped
insert, store to firebase, send the telegram alert if enabled (counted in
`notifyCalls`), broadcast `emergency_alert`, run the fifteen-sample
escalation sub-loop (which re-runs no detection), and reset the status to
safe; otherwise insert an uncapped safe audit event when the current log
length is a multiple of ten.  Every iteration ends by broadcasting
`status_update`. -/
def tickWithSample (s1 : SystemState) (location : Location)
    (det : DetectionResult) (escGps : ℕ → GpsPerturb) (now : String) :
    TickOut :=
  let s2 := { s1 with current_location := some location }
  if det.triggered then
    let s3 := { s2 with current_status := "distress" }
    let event := distressEvent location det.keyword
    let s4 := { s3 with events := appendCapped event s3.events }
    let notifies := if s4.telegram_enabled then 1 else 0
    let esc := escalationLoop s4 escGps
    let s6 := { esc.1 with current_status := "safe" }
    { state := s6,
      emits := [Emit.location_update location, Emit.emergency_alert event]
        ++ esc.2 ++ [Emit.status_update s6.current_status now],
      notifyCalls := notifies }
  else
    let s3 :=
      if s2.events.length % 10 == 0 then
        { s2 with events := safeEvent location :: s2.events }
      else s2
    { state := s3,
      emits := [Emit.location_update location,
        Emit.status_update s3.current_status now],
      notifyCalls := 0 }

/-- One iteration of the monitoring loop: draw the GPS sample, then run
the tick body on it. -/
def monitoring_tick (s : SystemState) (i : TickInput) : TickOut :=
  tickWithSample (get_simulated_gps s i.gps).1 (get_simulated_gps s i.gps).2
    i.det i.escGps i.now

/-- Result record of the control-surface endpoints
(`{'success': ..., 'message': ...}`). -/
structure RpcResult where
  success : Bool
  message : String
deriving DecidableEq, Repr

/-- `start_system` (lines 309-317): start only when not already running. -/
def start_system (s : SystemState) : SystemState × RpcResult :=
  if !s.running then
    ({ s with running := true }, { success := true, message := "System started" })
  else
    (s, { success := false, message := "Already running" })

/-- `stop_system` (lines 319-323): clear the running flag, always succeed. -/
def stop_system (s : SystemState) : SystemState × RpcResult :=
  ({ s with running := false }, { success := true, message := "System stopped" })

/-- Observable outcome of `trigger_emergency`. -/
structure TriggerOut where
  state : SystemState
  result : RpcResult
  emits : List Emit
  notifyCalls : ℕ

/-- `trigger_emergency` (lines 325-341): with a current location, build a
MANUAL_TRIGGER distress event at accuracy 10.0, insert it at the head with
no capacity check, store to firebase and broadcast `emergency_alert`; with
no location, fail.  No telegram call is made on this path. -/
def trigger_emergency (s : SystemState) (now : String) : TriggerOut :=
  match s.current_location with
  | some loc =>
    let event : Event :=
      { latitude := loc.latitude, longitude := loc.longitude,
        timestamp := now, status := "distress",
        keyword := some "MANUAL_TRIGGER", accuracy := 10 }
    { state := { s with events := event :: s.events },
      result := { success := true, message := "Emergency triggered" },
      emits := [Emit.emergency_alert event],
      notifyCalls := 0 }
  | none =>
    { state := s,
      result := { success := false, message := "No location available" },
      emits := [], notifyCalls := 0 }

/-- `handle_connect` (lines 344-357): bump the client counter, then replay
the current location (when one exists) followed by the current status to
the newly joined observer. -/
def handle_connect (s : SystemState) (now : String) :
    SystemState × List Emit :=
  let s' := { s with connected_clients := s.connected_clients + 1 }
  (s',
   (match s'.current_location with
    | some loc => [Emit.location_update loc]
    | none => []) ++ [Emit.status_update s'.current_status now])

/-- `handle_disconnect` (lines 359-363): unconditionally decrement the
client counter. -/
def handle_disconnect (s : SystemState) : SystemState :=
  { s with connected_clients := s.connected_clients - 1 }

/-- Python slicing `xs[:n]`: for nonnegative `n` the first `n` elements,
for negative `n` all but the last `|n|` elements. -/
def pySliceTo (xs : List Event) (n : ℤ) : List Event :=
  if 0 ≤ n then xs.take n.toNat
  else xs.take (xs.length - (-n).toNat)

/-- `get_events` (lines 301-307): `state.events[:limit]` with the query
parameter defaulting to 20 when absent. -/
def get_events (s : SystemState) (limit : Option ℤ) : List Event :=
  pySliceTo s.events (limit.getD 20)

/-- Delivery outcome of `TelegramHandler.send_alert` (lines 164-193).
The Python function returns only the `success` boolean; `attempted` and
`succeeded` instrument how many `send_message` calls were made and how
many of them did not raise. -/
structure AlertOut where
  success : Bool
  attempted : ℕ
  succeeded : ℕ
deriving DecidableEq, Repr

/-- One iteration of the delivery loop of `send_alert` (lines 186-192):
skip empty chat ids; otherwise attempt the delivery (`deliver` tells
whether the `send_message` call for a given chat id succeeds or raises),
swallowing a failure and keeping the accumulated success flag. -/
def sinkStep (deliver : String → Bool) (acc : AlertOut)
    (chat_id : String) : AlertOut :=
  if chat_id ≠ "" then
    if deliver chat_id then
      { success := true, attempted := acc.attempted + 1,
        succeeded := acc.succeeded + 1 }
    else
      { success := acc.success, attempted := acc.attempted + 1,
        succeeded := acc.succeeded }
  else acc

/-- `TelegramHandler.send_alert`: when disabled return False at once;
otherwise iterate the configured chat ids, attempting each delivery
independently; the Python function returns only the final `success`
boolean. -/
def send_alert (enabled : Bool) (chat_ids : List String)
    (deliver : String → Bool) : AlertOut :=
  if !enabled then { success := false, attempted := 0, succeeded := 0 }
  else
    chat_ids.foldl (sinkStep deliver)
      { success := false, attempted := 0, succeeded := 0 }

/-- An operation of the engine or control surface, for trace reasoning. -/
inductive Op where
  | tick (i : TickInput)
  | manualTrigger (now : String)
  | connect (now : String)
  | disconnect
  | start
  | stop

/-- State transition of a single operation. -/
def stepOp (s : SystemState) : Op → SystemState
  | .tick i => (monitoring_tick s i).state
  | .manualTrigger now => (trigger_emergency s now).state
  | .connect now => (handle_connect s now).1
  | .disconnect => handle_disconnect s
  | .start => (start_system s).1
  | .stop => (stop_system s).1

/-- Run a sequence of operations from a state. -/
def runOps (s : SystemState) (ops : List Op) : SystemState :=
  ops.foldl stepOp s

/-- Run a sequence of engine ticks only. -/
def runTicks (s : SystemState) (l : List TickInput) : SystemState :=
  l.foldl (fun s i => (monitoring_tick s i).state) s

/-! ### Emission counting helpers -/

/-- Number of `status_update` emissions in a list. -/
def countStatusUpdates (l : List Emit) : ℕ :=
  (l.filter fun e => match e with
    | .status_update _ _ => true
    | _ => false).length

/-- Number of `location_update` emissions in a list. -/
def countLocationUpdates (l : List Emit) : ℕ :=
  (l.filter fun e => match e with
    | .location_update _ => true
    | _ => false).length

/-- Number of `emergency_alert` emissions in a list. -/
def countAlerts (l : List Emit) : ℕ :=
  (l.filter fun e => match e with
    | .emergency_alert _ => true
    | _ => false).length

/-- State transition together with the emissions of one operation. -/
def outOp (s : SystemState) : Op → SystemState × List Emit
  | .tick i => ((monitoring_tick s i).state, (monitoring_tick s i).emits)
  | .manualTrigger now =>
      ((trigger_emergency s now).state, (trigger_emergency s now).emits)
  | .connect now => handle_connect s now
  | .disconnect => (handle_disconnect s, [])
  | .start => ((start_system s).1, [])
  | .stop => ((stop_system s).1, [])

/-- Run a sequence of operations, concatenating their emission logs in
delivery order. -/
def runOpsE (s : SystemState) : List Op → SystemState × List Emit
  | [] => (s, [])
  | op :: ops =>
      ((runOpsE (outOp s op).1 ops).1,
       (outOp s op).2 ++ (runOpsE (outOp s op).1 ops).2)

/-- Number of observer joins in an operation sequence. -/
def countConnects : List Op → ℕ
  | [] => 0
  | .connect _ :: ops => countConnects ops + 1
  | _ :: ops => countConnects ops

/-- Number of observer leaves in an operation sequence. -/
def countDisconnects : List Op → ℕ
  | [] => 0
  | .disconnect :: ops => countDisconnects ops + 1
  | _ :: ops => countDisconnects ops

/-- Effect of one operation on the connected-client counter. -/
def clientDelta : Op → ℤ
  | .connect _ => 1
  | .disconnect => -1
  | _ => 0

/-! ### Concrete inputs used by witnesses and counterexamples -/

/-- A perturbation drawing zero steps, used for concrete evaluation. -/
def quietPerturb : GpsPerturb where
  dAngle := 0
  stepLat := 0
  stepLon := 0
  accuracy := 10
  now := "t"

/-- A tick on which detection does not trigger. -/
def quietTick : TickInput where
  gps := quietPerturb
  det := { triggered := false, keyword := none, confidence := 0 }
  escGps := fun _ => quietPerturb
  now := "t"

/-- A tick on which detection triggers with keyword help. -/
def detTick : TickInput where
  gps := quietPerturb
  det := { triggered := true, keyword := some "help", confidence := 85/100 }
  escGps := fun _ => quietPerturb
  now := "t"

/-- A concrete stored location sample. -/
def locSample : Location where
  latitude := 28
  longitude := 77
  timestamp := "t"
  accuracy := 10
  source := "simulated"

/-- A state holding a location sample, with the telegram sink enabled. -/
def readyState : SystemState :=
  { initState with current_location := some locSample, telegram_enabled := true }

/-- A concrete safe event used to populate example logs. -/
def sampleEvent (ts : String) : Event where
  latitude := 28
  longitude := 77
  timestamp := ts
  status := "safe"
  keyword := none
  accuracy := 10

/-- A state whose log holds three events. -/
def threeEventState : SystemState :=
  { initState with
      events := [sampleEvent "t0", sampleEvent "t1", sampleEvent "t2"] }

/-- Operation sequence refuting the global capacity bound: start the
engine, run one quiet tick (which records a safe audit event and takes the
first location sample), then fire the manual trigger fifty times. -/
def overflowTrace : List Op :=
  Op.start :: Op.tick quietTick :: List.replicate 50 (Op.manualTrigger "t")

/-! ### Helper lemmas -/

/-- The clamp always lands within `r` of the center (for `0 ≤ r`). -/
theorem abs_clampCoord_sub_le (x c r : ℚ) (hr : 0 ≤ r) :
    |clampCoord x c r - c| ≤ r := by
  unfold clampCoord
  by_cases h : |x - c| > r
  · rw [if_pos h]
    by_cases h2 : x > c
    · rw [if_pos h2]
      have he : c + r - c = r := by ring
      rw [he, abs_of_nonneg hr]
    · rw [if_neg h2]
      have he : c - r - c = -r := by ring
      rw [he, abs_neg, abs_of_nonneg hr]
  · rw [if_neg h]
    exact le_of_not_lt h

/-- `round6` fixes any rational with denominator dividing one million. -/
theorem round6_int (n : ℤ) : round6 ((n : ℚ) / 1000000) = (n : ℚ) / 1000000 := by
  unfold round6
  have he : ((n : ℚ) / 1000000) * 1000000 = (n : ℚ) := by
    field_simp
  rw [he, round_intCast]

/-- Convenience form of `round6_int` for a given representation. -/
theorem round6_fix (q : ℚ) (n : ℤ) (h : q = (n : ℚ) / 1000000) :
    round6 q = q := by
  rw [h]
  exact round6_int n

/-- `round6` is monotone. -/
theorem round6_mono {a b : ℚ} (h : a ≤ b) : round6 a ≤ round6 b := by
  unfold round6
  have hr : round (a * 1000000) ≤ round (b * 1000000) := by
    rw [round_eq, round_eq]
    exact Int.floor_mono (by linarith)
  have hc : ((round (a * 1000000) : ℤ) : ℚ) ≤ ((round (b * 1000000) : ℤ) : ℚ) :=
    Int.cast_le.mpr hr
  exact (div_le_div_iff_of_pos_right (by norm_num)).mpr hc

/-- Rounding a value lying within `r` of a center that `round6` fixes at
both box edges keeps it within `r` of the center. -/
theorem abs_round6_sub_le {y c r : ℚ} (hlo : round6 (c - r) = c - r)
    (hhi : round6 (c + r) = c + r) (h : |y - c| ≤ r) :
    |round6 y - c| ≤ r := by
  rw [abs_le] at h ⊢
  constructor
  · have hm := round6_mono (show c - r ≤ y by linarith [h.1])
    rw [hlo] at hm
    linarith
  · have hm := round6_mono (show y ≤ c + r by linarith [h.2])
    rw [hhi] at hm
    linarith

/-! ### Claim theorems -/

/-- Claim C7: for every prior simulator state and every random
perturbation (heading delta and coordinate steps), the post-step simulated
position — both the internal `sim_lat`/`sim_lon` state and the rounded
coordinates of the returned sample — stays within the fixed
`SIMULATION_GPS_RADIUS` bounding box around `SIMULATION_GPS_CENTER`. -/
theorem C7_simulated_gps_bounded (s : SystemState) (p : GpsPerturb) :
    |((get_simulated_gps s p).1).sim_lat - SIMULATION_GPS_CENTER.1| ≤
      SIMULATION_GPS_RADIUS ∧
    |((get_simulated_gps s p).1).sim_lon - SIMULATION_GPS_CENTER.2| ≤
      SIMULATION_GPS_RADIUS ∧
    |((get_simulated_gps s p).2).latitude - SIMULATION_GPS_CENTER.1| ≤
      SIMULATION_GPS_RADIUS ∧
    |((get_simulated_gps s p).2).longitude - SIMULATION_GPS_CENTER.2| ≤
      SIMULATION_GPS_RADIUS := by
  have hr : (0 : ℚ) ≤ SIMULATION_GPS_RADIUS := by norm_num [SIMULATION_GPS_RADIUS]
  have hlat := abs_clampCoord_sub_le (s.sim_lat + p.stepLat)
    SIMULATION_GPS_CENTER.1 SIMULATION_GPS_RADIUS hr
  have hlon := abs_clampCoord_sub_le (s.sim_lon + p.stepLon)
    SIMULATION_GPS_CENTER.2 SIMULATION_GPS_RADIUS hr
  refine ⟨hlat, hlon, ?_, ?_⟩
  · exact abs_round6_sub_le
      (round6_fix _ 28603900
        (by norm_num [SIMULATION_GPS_CENTER, SIMULATION_GPS_RADIUS]))
      (round6_fix _ 28623900
        (by norm_num [SIMULATION_GPS_CENTER, SIMULATION_GPS_RADIUS]))
      hlat
  · exact abs_round6_sub_le
      (round6_fix _ 77199000
        (by norm_num [SIMULATION_GPS_CENTER, SIMULATION_GPS_RADIUS]))
      (round6_fix _ 77219000
        (by norm_num [SIMULATION_GPS_CENTER, SIMULATION_GPS_RADIUS]))
      hlon

/-- Claim C8: `start_system` fails exactly when the engine is already
running and otherwise sets the running flag; `stop_system` always reports
success, clears the running flag, and is idempotent on the state. -/
theorem C8_start_stop (s : SystemState) :
    ((start_system s).2.success = !s.running) ∧
    ((start_system s).1.running = true) ∧
    (s.running = false →
      start_system s =
        ({ s with running := true },
         { success := true, message := "System started" })) ∧
    ((stop_system s).2 = { success := true, message := "System stopped" }) ∧
    ((stop_system s).1.running = false) ∧
    (stop_system ((stop_system s).1) = stop_system s) := by
  cases hrun : s.running <;>
    simp [start_system, stop_system, hrun]

/-- Witness for C8 at the initial state, with the not-running hypothesis
discharged. -/
theorem C8_start_stop_witness :
    (start_system initState
      = ({ initState with running := true },
         { success := true, message := "System started" })) ∧
    ((stop_system initState).2
      = { success := true, message := "System stopped" }) :=
  ⟨(C8_start_stop initState).2.2.1 rfl,
   (C8_start_stop initState).2.2.2.1⟩

/-- Claim C10: `stop_system` changes only the running flag — status,
location, events, client count, sink connectivity flags and the simulator
state are all untouched. -/
theorem C10_stop_frame (s : SystemState) :
    (stop_system s).1.current_status = s.current_status ∧
    (stop_system s).1.current_location = s.current_location ∧
    (stop_system s).1.events = s.events ∧
    (stop_system s).1.connected_clients = s.connected_clients ∧
    (stop_system s).1.firebase_connected = s.firebase_connected ∧
    (stop_system s).1.telegram_enabled = s.telegram_enabled ∧
    (stop_system s).1.sim_lat = s.sim_lat ∧
    (stop_system s).1.sim_lon = s.sim_lon ∧
    (stop_system s).1.sim_angle = s.sim_angle ∧
    (stop_system s).1.running = false :=
  ⟨rfl, rfl, rfl, rfl, rfl, rfl, rfl, rfl, rfl, rfl⟩

/-- Claim C9: a joining observer is immediately sent exactly one
`status_update` carrying the latest known status, and exactly one
`location_update` carrying the latest known location exactly when one
exists; in any continuation trace these replay emissions precede every
emission produced by subsequent operations. -/
theorem C9_join_replay (s : SystemState) (now : String) (ops : List Op) :
    countStatusUpdates (handle_connect s now).2 = 1 ∧
    countLocationUpdates (handle_connect s now).2 =
      (if s.current_location.isSome then 1 else 0) ∧
    (handle_connect s now).2 =
      s.current_location.toList.map Emit.location_update ++
        [Emit.status_update s.current_status now] ∧
    (runOpsE s (Op.connect now :: ops)).2 =
      (handle_connect s now).2 ++ (runOpsE (handle_connect s now).1 ops).2 := by
  cases hloc : s.current_location <;>
    simp [handle_connect, countStatusUpdates, countLocationUpdates,
      runOpsE, outOp, hloc]

/-- The delivery loop's accumulator bookkeeping: attempts count the
nonempty chat ids independently of delivery outcomes, successes count the
nonempty ids whose delivery went through, and the success flag records
whether any delivery went through. -/
theorem sinkFold_spec (d : String → Bool) (ids : List String)
    (acc : AlertOut) :
    (ids.foldl (sinkStep d) acc).attempted
      = acc.attempted + (ids.filter (fun c => decide (c ≠ ""))).length ∧
    (ids.foldl (sinkStep d) acc).succeeded
      = acc.succeeded + (ids.filter (fun c => decide (c ≠ "") && d c)).length ∧
    (ids.foldl (sinkStep d) acc).success
      = (acc.success || ids.any (fun c => decide (c ≠ "") && d c)) := by
  induction ids generalizing acc with
  | nil => simp
  | cons c cs ih =>
    by_cases hc : c = ""
    · subst hc
      simpa [sinkStep] using ih acc
    · by_cases hd : d c = true
      · have := ih ⟨true, acc.attempted + 1, acc.succeeded + 1⟩
        simp only [List.foldl_cons, sinkStep, if_pos (by exact hc : c ≠ ""),
          if_pos hd] at *
        refine ⟨?_, ?_, ?_⟩
        · rw [this.1]
          simp [hc]
          omega
        · rw [this.2.1]
          simp [hc, hd]
          omega
        · rw [this.2.2]
          simp [hc, hd]
      · have := ih ⟨acc.success, acc.attempted + 1, acc.succeeded⟩
        simp only [List.foldl_cons, sinkStep, if_pos (by exact hc : c ≠ ""),
          if_neg hd] at *
        refine ⟨?_, ?_, ?_⟩
        · rw [this.1]
          simp [hc]
          omega
        · rw [this.2.1]
          simp [hc, hd]
        · rw [this.2.2]
          simp [hc, hd]

/-- Claim C3 counterexample: `send_alert` returns a bare boolean, not a
delivery report — a run where all three sinks succeed and a run where two
of the three fail return the identical value, so the returned value
cannot carry the `{attempted, succeeded}` report the claim describes
(the instrumented counts differ: 3 successes versus 1). -/
theorem C3_counterexample :
    (send_alert true ["a", "b", "c"] (fun _ => true)).success
      = (send_alert true ["a", "b", "c"] (fun c => c == "a")).success ∧
    (send_alert true ["a", "b", "c"] (fun _ => true)).succeeded = 3 ∧
    (send_alert true ["a", "b", "c"] (fun c => c == "a")).succeeded = 1 := by
  refine ⟨rfl, rfl, rfl⟩

/-- Claim C3 as amended: the fanout attempts every configured nonempty
sink independently — with 3 sinks of which exactly 1 fails it makes 3
attempts and 2 successful deliveries and returns True; the attempt count
never depends on individual delivery outcomes (isolation); the return
value is the boolean that some delivery succeeded; a disabled channel is
a silent no-op with zero attempts returning False, as is the default
no-sink configuration (a single empty chat id). -/
theorem C3_amended (ids : List String) (d : String → Bool) :
    (send_alert true ["a", "b", "c"] (fun c => !(c == "b"))
      = { success := true, attempted := 3, succeeded := 2 }) ∧
    ((send_alert true ids d).attempted
      = (ids.filter (fun c => decide (c ≠ ""))).length) ∧
    ((send_alert true ids d).succeeded
      = (ids.filter (fun c => decide (c ≠ "") && d c)).length) ∧
    ((send_alert true ids d).success
      = ids.any (fun c => decide (c ≠ "") && d c)) ∧
    (send_alert false ids d
      = { success := false, attempted := 0, succeeded := 0 }) ∧
    (send_alert true [""] d
      = { success := false, attempted := 0, succeeded := 0 }) := by
  have h := sinkFold_spec d ids
    { success := false, attempted := 0, succeeded := 0 }
  refine ⟨rfl, ?_, ?_, ?_, rfl, ?_⟩
  · simpa [send_alert] using h.1
  · simpa [send_alert] using h.2.1
  · simpa [send_alert] using h.2.2
  · simp [send_alert, sinkStep]

/-- Claim C5 counterexample: on a three-event log, `limit = -1` returns
two events (Python slice semantics drop only the last entry) — not the
empty result that `limit = 0` returns, so a negative limit is not clamped
to zero and yields more entries than the non-negative limit 0 would. -/
theorem C5_counterexample :
    (get_events threeEventState (some (-1))).length = 2 ∧
    (get_events threeEventState (some 0)).length = 0 := by
  refine ⟨rfl, rfl⟩

/-- Claim C5 as amended: `get_events` returns events from the head of the
log (newest first); the limit defaults to 20 when unspecified; a
nonnegative limit caps the result at `limit` entries; a negative limit is
not clamped — Python slice semantics apply, returning all but the last
`|limit|` entries; in every case no more than the full log is returned. -/
theorem C5_amended (s : SystemState) (n : ℤ) :
    (get_events s none = s.events.take 20) ∧
    (0 ≤ n → get_events s (some n) = s.events.take n.toNat ∧
      (get_events s (some n)).length ≤ n.toNat) ∧
    (n < 0 → get_events s (some n)
      = s.events.take (s.events.length - (-n).toNat)) ∧
    (get_events s (some n)).length ≤ s.events.length := by
  refine ⟨?_, ?_, ?_, ?_⟩
  · simp [get_events, pySliceTo]
  · intro hn
    refine ⟨by simp [get_events, pySliceTo, hn], ?_⟩
    simp [get_events, pySliceTo, hn]
  · intro hn
    simp [get_events, pySliceTo, not_le.mpr hn]
  · by_cases hn : 0 ≤ n <;>
      simp [get_events, pySliceTo, hn]

/-- Witness for C5 at a concrete log, limits 1 and -2. -/
theorem C5_amended_witness :
    (get_events threeEventState (some 1)
      = threeEventState.events.take 1) ∧
    (get_events threeEventState (some (-2))
      = threeEventState.events.take (threeEventState.events.length - 2)) :=
  ⟨((C5_amended threeEventState 1).2.1 (by norm_num)).1,
   (C5_amended threeEventState (-2)).2.2.1 (by norm_num)⟩

/-- One GPS draw touches only the simulator fields. -/
theorem gps_frame (s : SystemState) (p : GpsPerturb) :
    ((get_simulated_gps s p).1).events = s.events ∧
    ((get_simulated_gps s p).1).connected_clients = s.connected_clients ∧
    ((get_simulated_gps s p).1).current_status = s.current_status ∧
    ((get_simulated_gps s p).1).current_location = s.current_location ∧
    ((get_simulated_gps s p).1).running = s.running ∧
    ((get_simulated_gps s p).1).telegram_enabled = s.telegram_enabled ∧
    ((get_simulated_gps s p).1).firebase_connected = s.firebase_connected :=
  ⟨rfl, rfl, rfl, rfl, rfl, rfl, rfl⟩

/-- The escalation sub-loop touches only the simulator fields: events,
counters, flags, status and the stored location are untouched. -/
theorem escSteps_frame (l : List ℕ) (s : SystemState) (f : ℕ → GpsPerturb) :
    ((escSteps s f l).1).events = s.events ∧
    ((escSteps s f l).1).connected_clients = s.connected_clients ∧
    ((escSteps s f l).1).current_status = s.current_status ∧
    ((escSteps s f l).1).current_location = s.current_location ∧
    ((escSteps s f l).1).running = s.running ∧
    ((escSteps s f l).1).telegram_enabled = s.telegram_enabled ∧
    ((escSteps s f l).1).firebase_connected = s.firebase_connected := by
  induction l generalizing s with
  | nil => exact ⟨rfl, rfl, rfl, rfl, rfl, rfl, rfl⟩
  | cons i is ih => exact ih ((get_simulated_gps s (f i)).1)

/-- The escalation sub-loop emits one `location_update` per iteration and
nothing else. -/
theorem escSteps_emits (l : List ℕ) (s : SystemState) (f : ℕ → GpsPerturb) :
    countLocationUpdates (escSteps s f l).2 = l.length ∧
    countStatusUpdates (escSteps s f l).2 = 0 ∧
    countAlerts (escSteps s f l).2 = 0 := by
  induction l generalizing s with
  | nil => exact ⟨rfl, rfl, rfl⟩
  | cons i is ih =>
    have h := ih ((get_simulated_gps s (f i)).1)
    simp only [escSteps, countLocationUpdates, countStatusUpdates,
      countAlerts, List.filter_cons, if_true, if_false, List.length_cons] at h ⊢
    exact ⟨by rw [h.1], h.2.1, h.2.2⟩

/-- Emission counters distribute over concatenation. -/
theorem counts_append (a b : List Emit) :
    countLocationUpdates (a ++ b)
      = countLocationUpdates a + countLocationUpdates b ∧
    countStatusUpdates (a ++ b)
      = countStatusUpdates a + countStatusUpdates b ∧
    countAlerts (a ++ b) = countAlerts a + countAlerts b := by
  refine ⟨?_, ?_, ?_⟩ <;>
    simp [countLocationUpdates, countStatusUpdates, countAlerts,
      List.filter_append]

/-- The escalation sub-loop leaves the listed state fields untouched. -/
theorem escalationLoop_frame (s : SystemState) (f : ℕ → GpsPerturb) :
    ((escalationLoop s f).1).events = s.events ∧
    ((escalationLoop s f).1).connected_clients = s.connected_clients ∧
    ((escalationLoop s f).1).current_status = s.current_status ∧
    ((escalationLoop s f).1).current_location = s.current_location ∧
    ((escalationLoop s f).1).telegram_enabled = s.telegram_enabled :=
  ⟨(escSteps_frame (List.range 15) s f).1,
   (escSteps_frame (List.range 15) s f).2.1,
   (escSteps_frame (List.range 15) s f).2.2.1,
   (escSteps_frame (List.range 15) s f).2.2.2.1,
   (escSteps_frame (List.range 15) s f).2.2.2.2.2.1⟩

/-- The escalation sub-loop emits exactly fifteen location updates. -/
theorem escalationLoop_emits (s : SystemState) (f : ℕ → GpsPerturb) :
    countLocationUpdates (escalationLoop s f).2 = 15 ∧
    countStatusUpdates (escalationLoop s f).2 = 0 ∧
    countAlerts (escalationLoop s f).2 = 0 := by
  have h := escSteps_emits (List.range 15) s f
  rwa [List.length_range] at h

/-- Unfolding `monitoring_tick` into the tick body on the drawn sample. -/
theorem monitoring_tick_eq (s : SystemState) (i : TickInput) :
    monitoring_tick s i
      = tickWithSample (get_simulated_gps s i.gps).1
          (get_simulated_gps s i.gps).2 i.det i.escGps i.now := rfl

/-- Post-state of a triggered tick body: the escalation sub-loop runs on
the state carrying the freshly appended distress event, then the status
is reset to safe. -/
theorem tickT_state (s1 : SystemState) (loc : Location) (kw : Option String)
    (conf : ℚ) (f : ℕ → GpsPerturb) (now : String) :
    (tickWithSample s1 loc ⟨true, kw, conf⟩ f now).state
      = { (escalationLoop { s1 with current_location := some loc, current_status := "distress", events := appendCapped (distressEvent loc kw) s1.events } f).1 with current_status := "safe" } :=
  rfl

/-- Emissions of a triggered tick body. -/
theorem tickT_emits (s1 : SystemState) (loc : Location) (kw : Option String)
    (conf : ℚ) (f : ℕ → GpsPerturb) (now : String) :
    (tickWithSample s1 loc ⟨true, kw, conf⟩ f now).emits
      = [Emit.location_update loc, Emit.emergency_alert (distressEvent loc kw)] ++ (escalationLoop { s1 with current_location := some loc, current_status := "distress", events := appendCapped (distressEvent loc kw) s1.events } f).2 ++ [Emit.status_update "safe" now] :=
  rfl

/-- Notification count of a triggered tick body. -/
theorem tickT_notify (s1 : SystemState) (loc : Location) (kw : Option String)
    (conf : ℚ) (f : ℕ → GpsPerturb) (now : String) :
    (tickWithSample s1 loc ⟨true, kw, conf⟩ f now).notifyCalls
      = (if s1.telegram_enabled then 1 else 0) :=
  rfl

/-- Post-state of an untriggered tick body: the location is stored and,
when the current log length is a multiple of ten, an uncapped safe audit
event is inserted. -/
theorem tickU_state (s1 : SystemState) (loc : Location) (kw : Option String)
    (conf : ℚ) (f : ℕ → GpsPerturb) (now : String) :
    (tickWithSample s1 loc ⟨false, kw, conf⟩ f now).state
      = (if s1.events.length % 10 == 0 then { s1 with current_location := some loc, events := safeEvent loc :: s1.events } else { s1 with current_location := some loc }) :=
  rfl

/-- An untriggered tick body makes no notification call. -/
theorem tickU_notify (s1 : SystemState) (loc : Location) (kw : Option String)
    (conf : ℚ) (f : ℕ → GpsPerturb) (now : String) :
    (tickWithSample s1 loc ⟨false, kw, conf⟩ f now).notifyCalls = 0 :=
  rfl

attribute [irreducible] escalationLoop

/-- Spec of a triggered tick body: one capped distress append, safe final
status, client counter untouched, one guarded telegram call, one alert
broadcast, sixteen location updates, one status update. -/
theorem tickT_spec (s1 : SystemState) (loc : Location) (kw : Option String)
    (conf : ℚ) (f : ℕ → GpsPerturb) (now : String) :
    (tickWithSample s1 loc ⟨true, kw, conf⟩ f now).state.events
      = appendCapped (distressEvent loc kw) s1.events ∧
    (tickWithSample s1 loc ⟨true, kw, conf⟩ f now).state.current_status
      = "safe" ∧
    (tickWithSample s1 loc ⟨true, kw, conf⟩ f now).state.connected_clients
      = s1.connected_clients ∧
    (tickWithSample s1 loc ⟨true, kw, conf⟩ f now).notifyCalls
      = (if s1.telegram_enabled then 1 else 0) ∧
    countAlerts (tickWithSample s1 loc ⟨true, kw, conf⟩ f now).emits = 1 ∧
    countLocationUpdates (tickWithSample s1 loc ⟨true, kw, conf⟩ f now).emits
      = 16 ∧
    countStatusUpdates (tickWithSample s1 loc ⟨true, kw, conf⟩ f now).emits
      = 1 := by
  refine ⟨?_, ?_, ?_, tickT_notify s1 loc kw conf f now, ?_, ?_, ?_⟩
  · rw [tickT_state]
    exact (escalationLoop_frame { s1 with current_location := some loc, current_status := "distress", events := appendCapped (distressEvent loc kw) s1.events } f).1
  · rw [tickT_state]
  · rw [tickT_state]
    exact (escalationLoop_frame { s1 with current_location := some loc, current_status := "distress", events := appendCapped (distressEvent loc kw) s1.events } f).2.1
  · rw [tickT_emits, (counts_append _ _).2.2, (counts_append _ _).2.2,
      (escalationLoop_emits _ _).2.2]
    rfl
  · rw [tickT_emits, (counts_append _ _).1, (counts_append _ _).1,
      (escalationLoop_emits _ _).1]
    rfl
  · rw [tickT_emits, (counts_append _ _).2.1, (counts_append _ _).2.1,
      (escalationLoop_emits _ _).2.1]
    rfl

/-- Spec of an untriggered tick body: a safe audit event is inserted with
no capacity check exactly when the log length is a multiple of ten;
status, client counter and notification count are untouched. -/
theorem tickU_spec (s1 : SystemState) (loc : Location) (kw : Option String)
    (conf : ℚ) (f : ℕ → GpsPerturb) (now : String) :
    (tickWithSample s1 loc ⟨false, kw, conf⟩ f now).state.events
      = (if s1.events.length % 10 == 0 then safeEvent loc :: s1.events
         else s1.events) ∧
    (tickWithSample s1 loc ⟨false, kw, conf⟩ f now).state.current_status
      = s1.current_status ∧
    (tickWithSample s1 loc ⟨false, kw, conf⟩ f now).state.connected_clients
      = s1.connected_clients ∧
    (tickWithSample s1 loc ⟨false, kw, conf⟩ f now).notifyCalls = 0 := by
  refine ⟨?_, ?_, ?_, tickU_notify s1 loc kw conf f now⟩
  · rw [tickU_state]
    split <;> rfl
  · rw [tickU_state]
    split <;> rfl
  · rw [tickU_state]
    split <;> rfl

/-- Length of the capped insert: one longer below capacity, unchanged at
or above it. -/
theorem appendCapped_length (e : Event) (evs : List Event) :
    (appendCapped e evs).length
      = if evs.length + 1 > CAPACITY then evs.length else evs.length + 1 := by
  unfold appendCapped
  simp only [List.length_cons]
  split
  · simp [List.length_dropLast]
  · simp

/-- The capped insert keeps a prefix of the new head followed by the old
entries: eviction only ever removes the tail (oldest) element. -/
theorem appendCapped_take (e : Event) (evs : List Event) :
    appendCapped e evs
      = (e :: evs).take (min (evs.length + 1) (max evs.length CAPACITY)) := by
  unfold appendCapped
  simp only [List.length_cons]
  split
  · rename_i h
    rw [List.dropLast_eq_take]
    simp only [List.length_cons]
    congr 1
    omega
  · rename_i h
    rw [show min (evs.length + 1) (max evs.length CAPACITY) = evs.length + 1 by omega]
    rw [show evs.length + 1 = (e :: evs).length by simp]
    exact (List.take_length _).symm

/-- One tick can only grow the log within the 51-entry envelope: the
distress path is capped, and the safe audit insert fires only at lengths
divisible by ten, hence never at 51. -/
theorem tick_events_le (s : SystemState) (i : TickInput)
    (h : s.events.length ≤ 51) :
    (monitoring_tick s i).state.events.length ≤ 51 := by
  obtain ⟨gps, det, escf, now⟩ := i
  obtain ⟨tr, kw, conf⟩ := det
  rw [monitoring_tick_eq]
  dsimp only
  cases tr
  · rw [(tickU_spec (get_simulated_gps s gps).1 (get_simulated_gps s gps).2 kw conf escf now).1]
    have he : (get_simulated_gps s gps).1.events = s.events := rfl
    rw [he]
    by_cases hm : s.events.length % 10 = 0
    · rw [if_pos (by simpa using hm)]
      simp only [List.length_cons]
      omega
    · rw [if_neg (by simpa using hm)]
      exact h
  · rw [(tickT_spec (get_simulated_gps s gps).1 (get_simulated_gps s gps).2 kw conf escf now).1]
    rw [appendCapped_length]
    have he : (get_simulated_gps s gps).1.events = s.events := rfl
    rw [he]
    simp only [CAPACITY]
    split <;> omega

/-- Effect of one operation on the connected-client counter: joins add
one, leaves subtract one, everything else leaves it unchanged. -/
theorem stepOp_clients (s : SystemState) (op : Op) :
    (stepOp s op).connected_clients = s.connected_clients + clientDelta op := by
  cases op with
  | tick i =>
    obtain ⟨gps, det, escf, now⟩ := i
    obtain ⟨tr, kw, conf⟩ := det
    show (monitoring_tick s ⟨gps, ⟨tr, kw, conf⟩, escf, now⟩).state.connected_clients = s.connected_clients + 0
    rw [monitoring_tick_eq]
    dsimp only
    cases tr
    · rw [(tickU_spec (get_simulated_gps s gps).1 (get_simulated_gps s gps).2 kw conf escf now).2.2.1]
      show s.connected_clients = s.connected_clients + 0
      omega
    · rw [(tickT_spec (get_simulated_gps s gps).1 (get_simulated_gps s gps).2 kw conf escf now).2.2.1]
      show s.connected_clients = s.connected_clients + 0
      omega
  | manualTrigger now =>
    cases hloc : s.current_location with
    | none =>
      show (trigger_emergency s now).state.connected_clients = s.connected_clients + 0
      simp [trigger_emergency, hloc]
    | some loc =>
      show (trigger_emergency s now).state.connected_clients = s.connected_clients + 0
      simp [trigger_emergency, hloc]
  | connect now =>
    show (handle_connect s now).1.connected_clients = s.connected_clients + 1
    rfl
  | disconnect =>
    show (handle_disconnect s).connected_clients = s.connected_clients + (-1)
    show s.connected_clients - 1 = s.connected_clients + (-1)
    omega
  | start =>
    show (start_system s).1.connected_clients = s.connected_clients + 0
    cases hrun : s.running <;> simp [start_system, hrun]
  | stop =>
    show (stop_system s).1.connected_clients = s.connected_clients + 0
    simp [stop_system]

/-- Over any trace, the counter is the initial value plus joins minus
leaves. -/
theorem runOps_clients (ops : List Op) (s : SystemState) :
    (runOps s ops).connected_clients =
      s.connected_clients + countConnects ops - countDisconnects ops := by
  induction ops generalizing s with
  | nil => simp [runOps, countConnects, countDisconnects]
  | cons op ops ih =>
    have hstep := stepOp_clients s op
    have htail := ih (stepOp s op)
    show (runOps (stepOp s op) ops).connected_clients = _
    rw [htail, hstep]
    cases op <;>
      simp [clientDelta, countConnects, countDisconnects] <;> ring

/-- Claim C6 counterexample: the disconnect handler has no zero floor —
a single leave event from the initial state (counter 0) drives the
connected-client counter to -1, so an unmatched leave can make the
counter negative. -/
theorem C6_counterexample :
    (stepOp initState Op.disconnect).connected_clients = -1 := by decide

/-- Claim C6 as amended: a join increments the counter by one and a leave
decrements it by one with no floor; over any operation trace the counter
equals joins minus leaves, so it stays non-negative exactly when leaves
never outnumber joins — but an unmatched leave drives it negative. -/
theorem C6_amended :
    (∀ (s : SystemState) (now : String),
      (handle_connect s now).1.connected_clients
        = s.connected_clients + 1) ∧
    (∀ s : SystemState,
      (handle_disconnect s).connected_clients = s.connected_clients - 1) ∧
    (∀ ops : List Op,
      (runOps initState ops).connected_clients
        = (countConnects ops : ℤ) - (countDisconnects ops : ℤ)) ∧
    (∀ ops : List Op,
      (countDisconnects ops : ℤ) ≤ (countConnects ops : ℤ) →
        0 ≤ (runOps initState ops).connected_clients) := by
  have key : ∀ ops : List Op,
      (runOps initState ops).connected_clients
        = (countConnects ops : ℤ) - (countDisconnects ops : ℤ) := by
    intro ops
    have h := runOps_clients ops initState
    simpa [initState] using h
  refine ⟨fun s now => rfl, fun s => rfl, key, fun ops h => ?_⟩
  rw [key ops]
  omega

/-- Witness for C6 at a balanced join-leave trace. -/
theorem C6_amended_witness :
    0 ≤ (runOps initState [Op.connect "t", Op.disconnect]).connected_clients :=
  C6_amended.2.2.2 [Op.connect "t", Op.disconnect] (by decide)

set_option maxRecDepth 10000 in
/-- Claim C1 counterexample: starting the engine, running one quiet tick
(safe audit event inserted at log length 0, location sample stored) and
then firing the manual trigger fifty times leaves 51 events in the log —
the safe-audit and manual-trigger insertions perform no capacity check,
so the bound of 50 fails for sequences mixing ticks and control calls. -/
theorem C1_counterexample :
    CAPACITY < (runOps initState overflowTrace).events.length := by decide

/-- Claim C1 as amended: only the distress-detection insertion enforces
the capacity, dropping the oldest (tail) entry when the insert would
exceed 50 — `appendCapped` always returns a prefix of the new head
followed by the old entries.  The safe-audit insertion is uncapped, which
makes 51 entries reachable by ticks alone; for every sequence of engine
ticks the log still never exceeds 51, while manual triggers (uncapped as
well) can grow it without bound. -/
theorem C1_amended :
    (∀ ticks : List TickInput,
      (runTicks initState ticks).events.length ≤ 51) ∧
    (∀ (e : Event) (evs : List Event),
      appendCapped e evs
        = (e :: evs).take (min (evs.length + 1) (max evs.length CAPACITY))) := by
  have run : ∀ (l : List TickInput) (s : SystemState),
      s.events.length ≤ 51 → (runTicks s l).events.length ≤ 51 := by
    intro l
    induction l with
    | nil => intro s h; exact h
    | cons i is ih =>
      intro s h
      exact ih ((monitoring_tick s i).state) (tick_events_le s i h)
  exact ⟨fun ticks => run ticks initState (by decide), appendCapped_take⟩

/-- Claim C2: on a tick whose detection triggers while the status is safe
(and the notification channel is up), exactly one notification call is
made and exactly one new distress event — the head of the log, with the
remainder a prefix of the old entries — is recorded; the tick broadcasts
exactly one `emergency_alert`, sixteen location updates (the main sample
plus the fifteen escalation-window samples, during which detection never
re-runs since the sub-loop consumes no detection input), and one final
`status_update`; the status unconditionally returns to safe when the
window ends. -/
theorem C2_detection (s : SystemState) (i : TickInput)
    (hsafe : s.current_status = "safe") (hen : s.telegram_enabled = true)
    (htrig : i.det.triggered = true) :
    (monitoring_tick s i).notifyCalls = 1 ∧
    (monitoring_tick s i).state.events
      = (distressEvent (get_simulated_gps s i.gps).2 i.det.keyword
          :: s.events).take
          (min (s.events.length + 1) (max s.events.length CAPACITY)) ∧
    (distressEvent (get_simulated_gps s i.gps).2 i.det.keyword).status
      = "distress" ∧
    countAlerts (monitoring_tick s i).emits = 1 ∧
    countLocationUpdates (monitoring_tick s i).emits = 16 ∧
    countStatusUpdates (monitoring_tick s i).emits = 1 ∧
    (monitoring_tick s i).state.current_status = "safe" := by
  obtain ⟨gps, det, escf, now⟩ := i
  obtain ⟨tr, kw, conf⟩ := det
  dsimp only at htrig ⊢
  subst htrig
  rw [monitoring_tick_eq]
  dsimp only
  have h := tickT_spec (get_simulated_gps s gps).1 (get_simulated_gps s gps).2
    kw conf escf now
  refine ⟨?_, ?_, rfl, h.2.2.2.2.1, h.2.2.2.2.2.1, h.2.2.2.2.2.2, h.2.1⟩
  · rw [h.2.2.2.1,
      show (get_simulated_gps s gps).1.telegram_enabled = s.telegram_enabled
        from rfl,
      hen]
    rfl
  · rw [h.1, appendCapped_take]
    rfl

/-- Witness for C2 at a concrete ready state and triggered tick. -/
theorem C2_detection_witness :
    (monitoring_tick readyState detTick).notifyCalls = 1 ∧
    (monitoring_tick readyState detTick).state.current_status = "safe" :=
  ⟨(C2_detection readyState detTick rfl rfl rfl).1,
   (C2_detection readyState detTick rfl rfl rfl).2.2.2.2.2.2⟩

/-- Claim C4 counterexample: with a stored location and the telegram
channel enabled, the manual trigger makes zero notification calls while a
real detection at the same state makes one — so the manual path is not
processed as a real detection would be: the notification fanout is
skipped. -/
theorem C4_counterexample :
    (trigger_emergency readyState "t").notifyCalls = 0 ∧
    readyState.telegram_enabled = true ∧
    (monitoring_tick readyState detTick).notifyCalls = 1 := by
  refine ⟨rfl, rfl, rfl⟩

/-- Claim C4 as amended: the manual trigger fails (success=false, message
"No location available") exactly when no location sample exists;
otherwise it succeeds and inserts exactly one distress event with keyword
MANUAL_TRIGGER at the head of the log (with no capacity eviction) and
broadcasts one `emergency_alert` — but unlike a real detection it makes
no telegram notification call and leaves the alert status unchanged. -/
theorem C4_amended (s : SystemState) (now : String) :
    (s.current_location = none →
      trigger_emergency s now
        = { state := s,
            result := { success := false, message := "No location available" },
            emits := [], notifyCalls := 0 }) ∧
    (∀ loc : Location, s.current_location = some loc →
      (trigger_emergency s now).result
          = { success := true, message := "Emergency triggered" } ∧
      (trigger_emergency s now).state.events
          = ({ latitude := loc.latitude, longitude := loc.longitude, timestamp := now, status := "distress", keyword := some "MANUAL_TRIGGER", accuracy := 10 } : Event) :: s.events ∧
      countAlerts (trigger_emergency s now).emits = 1 ∧
      (trigger_emergency s now).notifyCalls = 0 ∧
      (trigger_emergency s now).state.current_status = s.current_status ∧
      (trigger_emergency s now).state.events.length = s.events.length + 1) := by
  constructor
  · intro h
    simp [trigger_emergency, h]
  · intro loc h
    simp [trigger_emergency, h, countAlerts]

/-- Witness for C4 at the initial state (no location) and the ready state
(location present). -/
theorem C4_amended_witness :
    trigger_emergency initState "t"
      = { state := initState,
          result := { success := false, message := "No location available" },
          emits := [], notifyCalls := 0 } ∧
    (trigger_emergency readyState "t").result
      = { success := true, message := "Emergency triggered" } :=
  ⟨(C4_amended initState "t").1 rfl,
   ((C4_amended readyState "t").2 locSample rfl).1⟩
